import Mathlib

/-!
Shallow embedding of the resilience-execution layer of
`src/validators/resilience_manager.py` (circuit breaker, retry handler,
resilience manager / graceful degradation).

Modelling conventions:
* Python `float` wall-clock instants from `time.time()` and the configured
  `recovery_timeout` are modelled as integers `ℤ`: the claims under scrutiny
  use only their subtraction/comparison structure, which `ℤ` shares with the
  source expressions.  Backoff delays and their config fields, whose claim is
  genuinely arithmetic (halving jitter factors), are modelled as `ℚ`.
* `time.time()` is an ambient clock: operations that read it take an explicit
  `now : ℤ` argument (one instant per breaker call / retry attempt).
* Python exceptions are modelled as `PyExc`, a class name plus message, so
  that `raise Exception(f"...")` and `str(e)` are expressible; an operation
  (`func`) is an oracle `ℕ → Except PyExc α` giving the outcome of its i-th
  invocation.
* `failure_count` starts at 0 and is only ever incremented or reset to 0 in
  the source, so it is a `ℕ`; the configured `failure_threshold` is a Python
  `int`, modelled as `ℤ`.
-/

/-- A Python exception value: its class name and its message
(`str(e)` is the message). -/
structure PyExc where
  cls : String
  msg : String
deriving DecidableEq, Repr

/-- `class CircuitState(Enum)` from the source: CLOSED / OPEN / HALF_OPEN. -/
inductive CircuitState where
  | closed
  | open_
  | halfOpen
deriving DecidableEq, Repr

/-- The `.value` string of each `CircuitState` enum member. -/
def CircuitState.value : CircuitState → String
  | .closed => "closed"
  | .open_ => "open"
  | .halfOpen => "half_open"

/-- `@dataclass CircuitBreakerConfig`.  `expected_exception` is a Python
exception class used in an `except` clause; it is modelled as the predicate
"this exception is an instance of that class". -/
structure CircuitBreakerConfig where
  failure_threshold : ℤ
  recovery_timeout : ℤ
  expected_exception : PyExc → Bool

/-- The default `expected_exception = Exception` catches every exception. -/
def allExceptions : PyExc → Bool := fun _ => true

/-- The default-constructed `CircuitBreakerConfig()`. -/
def default_cb_config : CircuitBreakerConfig :=
  { failure_threshold := 5, recovery_timeout := 60,
    expected_exception := allExceptions }

/-- The mutable fields of a `CircuitBreaker` instance together with its
config.  `__init__` sets `state = CLOSED`, `failure_count = 0`,
`last_failure_time = 0`.  The per-instance `threading.Lock` serialises the
methods below; each method is modelled as one atomic state transformer. -/
structure CircuitBreaker where
  config : CircuitBreakerConfig
  state : CircuitState
  failure_count : ℕ
  last_failure_time : ℤ

/-- `CircuitBreaker._can_execute`: returns the gate decision and the
(possibly updated) breaker.  In the OPEN state it lazily transitions to
HALF_OPEN when `time.time() - last_failure_time >= recovery_timeout`. -/
def CircuitBreaker._can_execute (cb : CircuitBreaker) (now : ℤ) :
    Bool × CircuitBreaker :=
  match cb.state with
  | CircuitState.closed => (true, cb)
  | CircuitState.open_ =>
      if cb.config.recovery_timeout ≤ now - cb.last_failure_time then
        (true, { cb with state := CircuitState.halfOpen })
      else
        (false, cb)
  | CircuitState.halfOpen => (true, cb)

/-- `CircuitBreaker._on_success`: reset `failure_count` to 0 and close. -/
def CircuitBreaker._on_success (cb : CircuitBreaker) : CircuitBreaker :=
  { cb with failure_count := 0, state := CircuitState.closed }

/-- `CircuitBreaker._on_failure`: increment `failure_count`, stamp
`last_failure_time = time.time()`, and open the circuit when the new count
reaches `failure_threshold`. -/
def CircuitBreaker._on_failure (cb : CircuitBreaker) (now : ℤ) :
    CircuitBreaker :=
  let cb1 := { cb with failure_count := cb.failure_count + 1,
                       last_failure_time := now }
  if cb1.config.failure_threshold ≤ (cb1.failure_count : ℤ) then
    { cb1 with state := CircuitState.open_ }
  else
    cb1

/-- The exception raised by `CircuitBreaker.call` on rejection:
`raise Exception(f"Circuit breaker is {self.state.value}")`. -/
def circuit_exc (s : CircuitState) : PyExc :=
  { cls := "Exception", msg := "Circuit breaker is " ++ s.value }

/-- Result of one `CircuitBreaker.call`: the surfaced result or exception,
the breaker afterwards, and whether the wrapped `func` was invoked. -/
structure CallResult (α : Type) where
  result : Except PyExc α
  breaker : CircuitBreaker
  invoked : Bool

/-- `CircuitBreaker.call(func)`: gate via `_can_execute`; on rejection raise
`Exception(f"Circuit breaker is {state.value}")` without invoking `func`; on
success record success; on a failure matching `expected_exception` record
failure and re-raise the same exception; a non-matching exception propagates
untouched (no failure recorded).  `res` is the outcome of invoking `func`. -/
def CircuitBreaker.call (cb : CircuitBreaker) (now : ℤ)
    (res : Except PyExc α) : CallResult α :=
  match cb._can_execute now with
  | (false, cb1) =>
      { result := Except.error (circuit_exc cb1.state), breaker := cb1,
        invoked := false }
  | (true, cb1) =>
      match res with
      | Except.ok v =>
          { result := Except.ok v, breaker := cb1._on_success, invoked := true }
      | Except.error e =>
          if cb1.config.expected_exception e then
            { result := Except.error e, breaker := cb1._on_failure now,
              invoked := true }
          else
            { result := Except.error e, breaker := cb1, invoked := true }

/-- `@dataclass RetryConfig`.  `max_attempts` is a Python `int`; the source
only ever drives `range(max_attempts)` with it, so it is modelled as `ℕ`
(a non-positive value gives an empty loop, exactly like the source). -/
structure RetryConfig where
  max_attempts : ℕ
  base_delay : ℚ
  max_delay : ℚ
  exponential_base : ℚ
  jitter : Bool

/-- The default-constructed `RetryConfig()`. -/
def default_retry_config : RetryConfig :=
  { max_attempts := 3, base_delay := 1, max_delay := 60,
    exponential_base := 2, jitter := true }

/-- `RetryHandler._calculate_delay(attempt)`:
`min(base_delay * exponential_base ** attempt, max_delay)`, then, when
jitter is on, `delay *= (0.5 + random.random() * 0.5)`.  The value returned
by `random.random()` (a uniform draw from `[0, 1)`) is the parameter `r`. -/
def RetryHandler._calculate_delay (c : RetryConfig) (attempt : ℕ) (r : ℚ) :
    ℚ :=
  let delay := min (c.base_delay * c.exponential_base ^ attempt) c.max_delay
  if c.jitter then delay * (1/2 + r * (1/2)) else delay

/-- `raise last_exception` when `last_exception` is still `None`: the Python
runtime turns `raise None` into a `TypeError`.  Reachable only when
`max_attempts = 0`, i.e. the `for` loop body never ran. -/
def none_exc : PyExc :=
  { cls := "TypeError", msg := "exceptions must derive from BaseException" }

/-- The `for attempt in range(max_attempts)` loop of
`RetryHandler.execute_with_retry`, with `fuel` iterations of the range left
and `attempt = max_attempts - fuel`; `calls` counts invocations of `func`
made so far.  On an exception at `attempt == max_attempts - 1` the last
exception is re-raised; otherwise the loop sleeps `_calculate_delay` (time
passes; no observable state here) and retries. -/
def retry_go (c : RetryConfig) (func : ℕ → Except PyExc α) :
    ℕ → ℕ → ℕ → Except PyExc α × ℕ
  | 0, _, calls => (Except.error none_exc, calls)
  | fuel + 1, attempt, calls =>
      match func attempt with
      | Except.ok v => (Except.ok v, calls + 1)
      | Except.error e =>
          if attempt = c.max_attempts - 1 then (Except.error e, calls + 1)
          else retry_go c func fuel (attempt + 1) (calls + 1)

/-- `RetryHandler.execute_with_retry(func)`: run the retry loop from
attempt 0; returns the surfaced outcome and how many times `func` ran. -/
def execute_with_retry (c : RetryConfig) (func : ℕ → Except PyExc α) :
    Except PyExc α × ℕ :=
  retry_go c func c.max_attempts 0 0

/-- `ResilienceManager`: the two lazily filled registries
`circuit_breakers : Dict[str, CircuitBreaker]` and
`retry_handlers : Dict[str, RetryHandler]` (a `RetryHandler` holds only its
config), modelled as association lists keyed by service name. -/
structure ResilienceManager where
  circuit_breakers : List (String × CircuitBreaker)
  retry_handlers : List (String × RetryConfig)

/-- The empty `ResilienceManager()`. -/
def emptyManager : ResilienceManager :=
  { circuit_breakers := [], retry_handlers := [] }

/-- Store a breaker under a name, replacing any existing binding (the Python
dict holds a mutable reference, so the registry always reflects the
breaker's current fields). -/
def setBreaker : List (String × CircuitBreaker) → String → CircuitBreaker →
    List (String × CircuitBreaker)
  | [], n, cb => [(n, cb)]
  | (k, v) :: rest, n, cb =>
      if k = n then (n, cb) :: rest else (k, v) :: setBreaker rest n cb

/-- `ResilienceManager.get_circuit_breaker(name, config)`: return the
existing breaker, or create one (with the supplied or default config) and
register it. -/
def ResilienceManager.get_circuit_breaker (m : ResilienceManager)
    (name : String) (config : Option CircuitBreakerConfig) :
    CircuitBreaker × ResilienceManager :=
  match m.circuit_breakers.lookup name with
  | some cb => (cb, m)
  | none =>
      let cb : CircuitBreaker :=
        { config := config.getD default_cb_config,
          state := CircuitState.closed, failure_count := 0,
          last_failure_time := 0 }
      (cb, { m with circuit_breakers := m.circuit_breakers ++ [(name, cb)] })

/-- `ResilienceManager.get_retry_handler(name, config)`. -/
def ResilienceManager.get_retry_handler (m : ResilienceManager)
    (name : String) (config : Option RetryConfig) :
    RetryConfig × ResilienceManager :=
  match m.retry_handlers.lookup name with
  | some rc => (rc, m)
  | none =>
      let rc := config.getD default_retry_config
      (rc, { m with retry_handlers := m.retry_handlers ++ [(name, rc)] })

/-- The retry loop of `execute_with_resilience`: each attempt runs
`circuit_breaker.call(func)` (so a gate rejection surfaces as an ordinary
exception and consumes a retry attempt), threading the breaker state;
`times attempt` is the wall clock during that attempt. -/
def resilient_go (rc : RetryConfig) (func : ℕ → Except PyExc α)
    (times : ℕ → ℤ) : ℕ → ℕ → CircuitBreaker →
    Except PyExc α × CircuitBreaker
  | 0, _, cb => (Except.error none_exc, cb)
  | fuel + 1, attempt, cb =>
      let r := cb.call (times attempt) (func attempt)
      match r.result with
      | Except.ok v => (Except.ok v, r.breaker)
      | Except.error e =>
          if attempt = rc.max_attempts - 1 then (Except.error e, r.breaker)
          else resilient_go rc func times fuel (attempt + 1) r.breaker

/-- `ResilienceManager.execute_with_resilience(service_name, func)`:
get-or-create the breaker and retry handler for the name, run the protected
retry loop, and return the outcome together with the manager (whose
registry reflects the breaker's final state, as the dict aliases the
mutated object in the source). -/
def ResilienceManager.execute_with_resilience (m : ResilienceManager)
    (name : String) (func : ℕ → Except PyExc α) (times : ℕ → ℤ) :
    Except PyExc α × ResilienceManager :=
  let p1 := m.get_circuit_breaker name none
  let p2 := p1.2.get_retry_handler name none
  let out := resilient_go p2.1 func times p2.1.max_attempts 0 p1.1
  (out.1, { p2.2 with
              circuit_breakers := setBreaker p2.2.circuit_breakers name out.2 })

/-- One entry of the `results` dict built by `graceful_degradation`:
`{"status": "success", ...}`, `{"status": "fallback_success", ...}` or
`{"status": "failed", ...}` (the latter with or without a fallback error). -/
inductive DegradationResult (α : Type) where
  | success (result : α)
  | fallback_success (fallback_result : α) (original_error : String)
  | failed (error : String) (fallback_error : Option String)
deriving DecidableEq

/-- The body of the `for exporter_name, exporter_func in exporters.items()`
loop of `ResilienceManager.graceful_degradation`: run the primary with
resilience; on an exception, run the fallback (if any) under the derived
name `f"{exporter_name}_fallback"` and record the structured outcome. -/
def graceful_step (m : ResilienceManager)
    (fallback_exporters : List (String × (ℕ → Except PyExc α)))
    (times : ℕ → ℤ) (name : String) (func : ℕ → Except PyExc α) :
    DegradationResult α × ResilienceManager :=
  match m.execute_with_resilience name func times with
  | (Except.ok v, m1) => (DegradationResult.success v, m1)
  | (Except.error e, m1) =>
      match fallback_exporters.lookup name with
      | some fb =>
          match m1.execute_with_resilience (name ++ "_fallback") fb times with
          | (Except.ok v, m2) =>
              (DegradationResult.fallback_success v e.msg, m2)
          | (Except.error fe, m2) =>
              (DegradationResult.failed e.msg (some fe.msg), m2)
      | none => (DegradationResult.failed e.msg none, m1)

/-- `ResilienceManager.graceful_degradation(exporters, fallback_exporters)`:
fold `graceful_step` over the exporters (dict iteration order = insertion
order, modelled by the list order), collecting one outcome per exporter
name; every exception is caught, so the loop always completes. -/
def ResilienceManager.graceful_degradation (m : ResilienceManager)
    (exporters : List (String × (ℕ → Except PyExc α)))
    (fallback_exporters : List (String × (ℕ → Except PyExc α)))
    (times : ℕ → ℤ) :
    List (String × DegradationResult α) × ResilienceManager :=
  match exporters with
  | [] => ([], m)
  | (name, func) :: rest =>
      let p := graceful_step m fallback_exporters times name func
      let q := p.2.graceful_degradation rest fallback_exporters times
      ((name, p.1) :: q.1, q.2)

/-- Breaker states reachable from a freshly constructed
`CircuitBreaker(config)` by the operations of the source: the gate check
inside `call` (`_can_execute` — the spec's `Allow()`), `_on_success`
(`RecordSuccess`), `_on_failure` (`RecordFailure`), and the manual
`ResilienceManager.reset_circuit_breaker`, which sets
`state = CLOSED; failure_count = 0` on the stored breaker. -/
inductive Reachable : CircuitBreaker → Prop where
  | init (cfg : CircuitBreakerConfig) :
      Reachable { config := cfg, state := CircuitState.closed,
                  failure_count := 0, last_failure_time := 0 }
  | allow (cb : CircuitBreaker) (now : ℤ) (h : Reachable cb) :
      Reachable (cb._can_execute now).2
  | success (cb : CircuitBreaker) (h : Reachable cb) :
      Reachable cb._on_success
  | failure (cb : CircuitBreaker) (now : ℤ) (h : Reachable cb) :
      Reachable (cb._on_failure now)
  | reset (cb : CircuitBreaker) (h : Reachable cb) :
      Reachable { cb with state := CircuitState.closed, failure_count := 0 }

/-- `n` consecutive `_on_failure` calls (no intervening success or reset),
the `k`-th at wall-clock `nows k`. -/
def record_failures (cb : CircuitBreaker) (nows : ℕ → ℤ) : ℕ → CircuitBreaker
  | 0 => cb
  | n + 1 => (record_failures cb nows n)._on_failure (nows n)

/-- Program counter of one thread running
`ResilienceManager.get_circuit_breaker` for a fixed fresh name.  The method
takes no lock, so its two statements are separate atomic actions:
`pcCheck` is the test `name not in self.circuit_breakers`; `pcInsert b`
(with `b` the remembered test outcome) is
`self.circuit_breakers[name] = CircuitBreaker(config)` when `b` is true and
a no-op otherwise; `pcDone` is after the final read-and-return. -/
inductive RegPc where
  | pcCheck
  | pcInsert (absent : Bool)
  | pcDone
deriving DecidableEq

/-- Shared registry state for two threads racing
`get_circuit_breaker(name)` on the same previously unused name:
whether some binding for `name` is in `circuit_breakers`, how many
`CircuitBreaker(config)` objects have been constructed, and each thread's
program counter. -/
structure RegState where
  registered : Bool
  constructions : ℕ
  pc1 : RegPc
  pc2 : RegPc
deriving DecidableEq

/-- Advance one thread of `get_circuit_breaker` by one atomic action. -/
def threadStep (registered : Bool) (constructions : ℕ) :
    RegPc → Bool × ℕ × RegPc
  | RegPc.pcCheck => (registered, constructions, RegPc.pcInsert (!registered))
  | RegPc.pcInsert absent =>
      if absent then (true, constructions + 1, RegPc.pcDone)
      else (registered, constructions, RegPc.pcDone)
  | RegPc.pcDone => (registered, constructions, RegPc.pcDone)

/-- Interleaving step: scheduler picks thread 1 (`false`) or 2 (`true`). -/
def regStep (s : RegState) (tid : Bool) : RegState :=
  if tid then
    let r := threadStep s.registered s.constructions s.pc2
    { s with registered := r.1, constructions := r.2.1, pc2 := r.2.2 }
  else
    let r := threadStep s.registered s.constructions s.pc1
    { s with registered := r.1, constructions := r.2.1, pc1 := r.2.2 }

/-- Run a schedule (list of thread choices) from a state. -/
def runSchedule : List Bool → RegState → RegState
  | [], s => s
  | t :: rest, s => runSchedule rest (regStep s t)

/-- Both threads about to run `get_circuit_breaker` for a name that is not
yet registered. -/
def regInit : RegState :=
  { registered := false, constructions := 0,
    pc1 := RegPc.pcCheck, pc2 := RegPc.pcCheck }

/-! ### Helper lemmas -/

theorem on_failure_count (cb : CircuitBreaker) (now : ℤ) :
    (cb._on_failure now).failure_count = cb.failure_count + 1 := by
  unfold CircuitBreaker._on_failure
  dsimp only
  split <;> rfl

theorem on_failure_last (cb : CircuitBreaker) (now : ℤ) :
    (cb._on_failure now).last_failure_time = now := by
  unfold CircuitBreaker._on_failure
  dsimp only
  split <;> rfl

theorem on_failure_config (cb : CircuitBreaker) (now : ℤ) :
    (cb._on_failure now).config = cb.config := by
  unfold CircuitBreaker._on_failure
  dsimp only
  split <;> rfl

theorem on_failure_opens (cb : CircuitBreaker) (now : ℤ)
    (h : cb.config.failure_threshold ≤ (cb.failure_count : ℤ) + 1) :
    (cb._on_failure now).state = CircuitState.open_ := by
  unfold CircuitBreaker._on_failure
  rw [if_pos]
  push_cast
  exact h

theorem reachable_sat : ∀ cb : CircuitBreaker, Reachable cb →
    (cb.state = CircuitState.open_ ∨ cb.state = CircuitState.halfOpen) →
    cb.config.failure_threshold ≤ (cb.failure_count : ℤ) := by
  intro cb h
  induction h with
  | init cfg =>
      rintro (h | h) <;> simp at h
  | allow cb now hcb ih =>
      intro hs
      unfold CircuitBreaker._can_execute at hs ⊢
      cases hstate : cb.state with
      | closed => simp only [hstate] at hs ⊢; simp [hstate] at hs
      | open_ =>
          simp only [hstate] at hs ⊢
          split <;> exact ih (Or.inl hstate)
      | halfOpen => simp only [hstate] at hs ⊢; exact ih (Or.inr hstate)
  | success cb hcb ih =>
      intro hs
      unfold CircuitBreaker._on_success at hs
      simp at hs
  | failure cb now hcb ih =>
      intro hs
      unfold CircuitBreaker._on_failure at hs ⊢
      by_cases hc : cb.config.failure_threshold ≤ ((cb.failure_count + 1 : ℕ) : ℤ)
      · rw [if_pos hc] at hs ⊢
        simpa using hc
      · rw [if_neg hc] at hs ⊢
        have := ih hs
        simp only []
        push_cast
        omega
  | reset cb hcb ih =>
      intro hs
      simp at hs

theorem can_execute_open_not_elapsed (cb : CircuitBreaker) (now : ℤ)
    (hs : cb.state = CircuitState.open_)
    (ht : ¬ cb.config.recovery_timeout ≤ now - cb.last_failure_time) :
    cb._can_execute now = (false, cb) := by
  unfold CircuitBreaker._can_execute
  rw [hs]
  exact if_neg ht

theorem call_rejected (cb : CircuitBreaker) (now : ℤ)
    (res : Except PyExc α)
    (hs : cb.state = CircuitState.open_)
    (ht : ¬ cb.config.recovery_timeout ≤ now - cb.last_failure_time) :
    cb.call now res
      = { result := Except.error (circuit_exc CircuitState.open_),
          breaker := cb, invoked := false } := by
  unfold CircuitBreaker.call
  rw [can_execute_open_not_elapsed cb now hs ht]
  dsimp only
  rw [hs]

theorem call_allowed_error (cb : CircuitBreaker) (now : ℤ) (e : PyExc)
    (h : (cb._can_execute now).1 = true) :
    (cb.call now (Except.error e : Except PyExc α)).result = Except.error e ∧
    (cb.call now (Except.error e : Except PyExc α)).invoked = true := by
  unfold CircuitBreaker.call
  rcases hce : cb._can_execute now with ⟨b, cb1⟩
  rw [hce] at h
  simp only at h
  subst h
  by_cases hx : cb1.config.expected_exception e = true
  · simp [hx]
  · simp [hx]

theorem record_failures_count (cb : CircuitBreaker) (nows : ℕ → ℤ) :
    ∀ n, (record_failures cb nows n).failure_count = cb.failure_count + n := by
  intro n
  induction n with
  | zero => rfl
  | succ k ih =>
      unfold record_failures
      rw [on_failure_count, ih]
      omega

theorem record_failures_config (cb : CircuitBreaker) (nows : ℕ → ℤ) :
    ∀ n, (record_failures cb nows n).config = cb.config := by
  intro n
  induction n with
  | zero => rfl
  | succ k ih =>
      unfold record_failures
      rw [on_failure_config, ih]

theorem retry_all_fail (c : RetryConfig) (errs : ℕ → PyExc)
    (func : ℕ → Except PyExc α)
    (hf : ∀ i, func i = Except.error (errs i)) :
    ∀ fuel attempt calls, 1 ≤ fuel → attempt + fuel = c.max_attempts →
      retry_go c func fuel attempt calls
        = (Except.error (errs (c.max_attempts - 1)), calls + fuel) := by
  intro fuel
  induction fuel with
  | zero => intro attempt calls h1 _; exact absurd h1 (by omega)
  | succ k ih =>
      intro attempt calls h1 h2
      simp only [retry_go, hf attempt]
      by_cases hl : attempt = c.max_attempts - 1
      · rw [if_pos hl]
        have hk : k = 0 := by omega
        subst hk
        rw [hl]
      · rw [if_neg hl]
        have hk : 1 ≤ k := by omega
        rw [ih (attempt + 1) (calls + 1) hk (by omega)]
        have : calls + 1 + k = calls + (k + 1) := by omega
        rw [this]

theorem execute_all_fail (c : RetryConfig) (errs : ℕ → PyExc)
    (func : ℕ → Except PyExc α)
    (hf : ∀ i, func i = Except.error (errs i)) (h : 1 ≤ c.max_attempts) :
    execute_with_retry c func
      = (Except.error (errs (c.max_attempts - 1)), c.max_attempts) := by
  unfold execute_with_retry
  have := retry_all_fail c errs func hf c.max_attempts 0 0 h (by omega)
  simpa using this

theorem gd_keys (fallbacks : List (String × (ℕ → Except PyExc α)))
    (times : ℕ → ℤ) :
    ∀ (exporters : List (String × (ℕ → Except PyExc α)))
      (m : ResilienceManager),
      ((m.graceful_degradation exporters fallbacks times).1).map Prod.fst
        = exporters.map Prod.fst := by
  intro exporters
  induction exporters with
  | nil => intro m; rfl
  | cons hd tl ih =>
      intro m
      rcases hd with ⟨name, func⟩
      unfold ResilienceManager.graceful_degradation
      dsimp only
      simp [ih]

/-! ### Concrete sample inputs used by witnesses and counterexamples -/

/-- An Open breaker with the default config, tripped at time 0 with a
saturated failure count (the state a default breaker is in right after its
fifth recorded failure). -/
def cbOpen5 : CircuitBreaker :=
  { config := default_cb_config, state := CircuitState.open_,
    failure_count := 5, last_failure_time := 0 }

/-- `cbOpen5` after its lazy transition to HalfOpen. -/
def cbHalf5 : CircuitBreaker :=
  { config := default_cb_config, state := CircuitState.halfOpen,
    failure_count := 5, last_failure_time := 0 }

/-- A freshly constructed breaker with the default config. -/
def cbClosed0 : CircuitBreaker :=
  { config := default_cb_config, state := CircuitState.closed,
    failure_count := 0, last_failure_time := 0 }

/-- A config with `failure_threshold = 1`. -/
def cfg1 : CircuitBreakerConfig :=
  { failure_threshold := 1, recovery_timeout := 60,
    expected_exception := allExceptions }

/-- A freshly constructed breaker with `cfg1`. -/
def cbInit1 : CircuitBreaker :=
  { config := cfg1, state := CircuitState.closed, failure_count := 0,
    last_failure_time := 0 }

/-- `cbInit1` after one recorded failure at time 0: Open. -/
def cbOpen1 : CircuitBreaker := cbInit1._on_failure 0

/-- `cbOpen1` after the gate check at time 60: HalfOpen. -/
def cbHalf1 : CircuitBreaker := (cbOpen1._can_execute 60).2

/-- Distinct exceptions, one per invocation index. -/
def boomErrs : ℕ → PyExc :=
  fun i => { cls := "Exception", msg := "boom" ++ toString i }

/-- An operation that fails on every invocation. -/
def failF : ℕ → Except PyExc ℕ := fun i => Except.error (boomErrs i)

/-- An operation that succeeds on every invocation. -/
def okF : ℕ → Except PyExc ℕ := fun _ => Except.ok 7

/-- A constant wall clock. -/
def times0 : ℕ → ℤ := fun _ => 0

/-- The default retry config with jitter turned off. -/
def retry_nojitter : RetryConfig := { default_retry_config with jitter := false }

/-! ### Claims -/

/-- C1 (amended): for every Open breaker, the first `Allow()` (gate check)
at or after `recovery_timeout` has elapsed since `last_failure_time`
transitions the breaker to HalfOpen and returns true; but — contrary to the
claim's "permits exactly one call" — while the breaker stays HalfOpen every
subsequent `Allow()` also returns true and leaves it unchanged: the source
permits unlimited probe calls in HALF_OPEN until a success or failure is
recorded. -/
theorem C1_halfopen_allows_all :
    (∀ (cb : CircuitBreaker) (now : ℤ),
      cb.state = CircuitState.open_ →
      cb.config.recovery_timeout ≤ now - cb.last_failure_time →
      cb._can_execute now = (true, { cb with state := CircuitState.halfOpen })) ∧
    (∀ (cb : CircuitBreaker) (now : ℤ),
      cb.state = CircuitState.halfOpen →
      cb._can_execute now = (true, cb)) := by
  constructor
  · intro cb now hs ht
    unfold CircuitBreaker._can_execute
    rw [hs]
    exact if_pos ht
  · intro cb now hs
    unfold CircuitBreaker._can_execute
    rw [hs]

/-- C1 counterexample: a default-config breaker opened at time 0, probed
twice at time 60.  The first `Allow()` transitions to HalfOpen and returns
true, as claimed; but the second `Allow()`, issued before any success or
failure is recorded, returns true as well — the claim says every such
subsequent call returns false. -/
theorem C1_counterexample :
    (cbOpen5._can_execute 60).1 = true ∧
    (cbOpen5._can_execute 60).2.state = CircuitState.halfOpen ∧
    ((cbOpen5._can_execute 60).2._can_execute 60).1 ≠ false := by decide

/-- C1 witness: the amended claim at the concrete breaker `cbOpen5` probed
at times 60 and 61. -/
theorem C1_witness :
    cbOpen5._can_execute 60 = (true, cbHalf5) ∧
    cbHalf5._can_execute 61 = (true, cbHalf5) :=
  ⟨C1_halfopen_allows_all.1 cbOpen5 60 rfl (by decide),
   C1_halfopen_allows_all.2 cbHalf5 61 rfl⟩

/-- C2 (amended): for every retry policy with `max_attempts ≥ 1` and every
operation that fails on all attempts, `execute_with_retry` invokes the
operation exactly `max_attempts` times and then re-raises the final
attempt's exception unchanged — the bare last error, with no
`RetryExhausted` wrapper and no attempt count attached (the source has no
such wrapper type). -/
theorem C2_retry_exhausts :
    ∀ (α : Type) (c : RetryConfig) (errs : ℕ → PyExc)
      (func : ℕ → Except PyExc α),
      1 ≤ c.max_attempts → (∀ i, func i = Except.error (errs i)) →
      execute_with_retry c func
        = (Except.error (errs (c.max_attempts - 1)), c.max_attempts) := by
  intro α c errs func h hf
  exact execute_all_fail c errs func hf h

/-- C2 counterexample: the default policy (`max_attempts = 3`) on an
always-failing operation whose i-th invocation raises `boom{i}`.  The
surfaced error is exactly the operation's own third exception
(class `"Exception"`, message `"boom2"`) — the bare last error, not a
`RetryExhaustedError` wrapping it with the attempt count, which the claim
requires. -/
theorem C2_counterexample :
    (execute_with_retry default_retry_config failF).1
      = Except.error { cls := "Exception", msg := "boom2" } ∧
    (execute_with_retry default_retry_config failF).2 = 3 :=
  ⟨rfl, rfl⟩

/-- C2 witness: the amended claim at the default policy and the
always-failing operation `failF`. -/
theorem C2_witness :
    execute_with_retry default_retry_config failF
      = (Except.error (boomErrs 2), 3) :=
  C2_retry_exhausts ℕ default_retry_config boomErrs failF (by decide)
    (fun _ => rfl)

/-- C3 (amended): a call rejected by the gate surfaces a *generic*
`Exception` whose message merely names the breaker state
(`"Circuit breaker is open"`) — not a distinct `CircuitOpen` error kind —
and the wrapped operation is never invoked on that attempt; for every
allowed attempt that fails, the operation's own exception is passed through
unchanged.  Because the rejection error is a plain `Exception`, it is not
distinguishable by kind from an operation's own failure (see the
counterexample). -/
theorem C3_rejection_vs_passthrough :
    (∀ (α : Type) (cb : CircuitBreaker) (now : ℤ) (res : Except PyExc α),
      cb.state = CircuitState.open_ →
      ¬ cb.config.recovery_timeout ≤ now - cb.last_failure_time →
      (cb.call now res).result
          = Except.error (circuit_exc CircuitState.open_) ∧
      (cb.call now res).invoked = false) ∧
    (∀ (α : Type) (cb : CircuitBreaker) (now : ℤ) (e : PyExc),
      (cb._can_execute now).1 = true →
      (cb.call now (Except.error e : Except PyExc α)).result = Except.error e ∧
      (cb.call now (Except.error e : Except PyExc α)).invoked = true) := by
  constructor
  · intro α cb now res hs ht
    rw [call_rejected cb now res hs ht]
    exact ⟨rfl, rfl⟩
  · intro α cb now e h
    exact call_allowed_error cb now e h

/-- C3 counterexample: the gate rejection error and an operation's own
error can be literally identical.  `cbOpen5` rejected at time 10 surfaces
`Exception("Circuit breaker is open")` without invoking the operation; a
closed breaker whose operation itself raises
`Exception("Circuit breaker is open")` surfaces the very same value — so
there is no `CircuitOpen` error kind distinguishable from an
`OperationError`, as the claim asserts. -/
theorem C3_counterexample :
    (cbOpen5.call 10 (Except.error (boomErrs 0) : Except PyExc ℕ)).invoked
      = false ∧
    (cbClosed0.call 10
        (Except.error (circuit_exc CircuitState.open_) : Except PyExc ℕ)).invoked
      = true ∧
    (cbOpen5.call 10 (Except.error (boomErrs 0) : Except PyExc ℕ)).result
      = (cbClosed0.call 10
          (Except.error (circuit_exc CircuitState.open_) : Except PyExc ℕ)).result :=
  ⟨rfl, rfl, rfl⟩

/-- C3 witness: the amended claim at `cbOpen5` (rejection at time 10) and at
a closed breaker passing through `boom0`. -/
theorem C3_witness :
    ((cbOpen5.call 10 (Except.error (boomErrs 1) : Except PyExc ℕ)).result
        = Except.error (circuit_exc CircuitState.open_) ∧
     (cbOpen5.call 10 (Except.error (boomErrs 1) : Except PyExc ℕ)).invoked
        = false) ∧
    ((cbClosed0.call 10 (Except.error (boomErrs 0) : Except PyExc ℕ)).result
        = Except.error (boomErrs 0) ∧
     (cbClosed0.call 10 (Except.error (boomErrs 0) : Except PyExc ℕ)).invoked
        = true) :=
  ⟨C3_rejection_vs_passthrough.1 ℕ cbOpen5 10 (Except.error (boomErrs 1))
     rfl (by decide),
   C3_rejection_vs_passthrough.2 ℕ cbClosed0 10 (boomErrs 0) rfl⟩

/-- C4: for every breaker in the Closed state (with a positive configured
threshold, as the spec's data model requires) and every sequence of
`failure_threshold` consecutive recorded failures with no intervening
success or reset, the state afterwards is Open. -/
theorem C4_threshold_opens :
    ∀ (cb : CircuitBreaker) (nows : ℕ → ℤ),
      cb.state = CircuitState.closed →
      1 ≤ cb.config.failure_threshold →
      (record_failures cb nows cb.config.failure_threshold.toNat).state
        = CircuitState.open_ := by
  intro cb nows hs ht
  obtain ⟨k, hk⟩ : ∃ k, cb.config.failure_threshold.toNat = k + 1 :=
    ⟨cb.config.failure_threshold.toNat - 1, by omega⟩
  rw [hk]
  unfold record_failures
  apply on_failure_opens
  rw [record_failures_config, record_failures_count]
  push_cast
  omega

/-- C4 witness: a fresh default breaker (threshold 5) after 5 consecutive
failures is Open. -/
theorem C4_witness :
    (record_failures cbClosed0 times0 5).state = CircuitState.open_ :=
  C4_threshold_opens cbClosed0 times0 rfl (by decide)

/-- C5: every reachable HalfOpen breaker transitions to Closed with
`failure_count = 0` on a single recorded success, and to Open with
`last_failure_time` updated to the failure's time on a single recorded
failure (the latter because a reachable HalfOpen breaker's failure count is
already at the threshold, so one more failure re-trips the `≥ threshold`
check). -/
theorem C5_halfopen_step :
    ∀ (cb : CircuitBreaker) (now : ℤ), Reachable cb →
      cb.state = CircuitState.halfOpen →
      (cb._on_success.state = CircuitState.closed ∧
       cb._on_success.failure_count = 0) ∧
      ((cb._on_failure now).state = CircuitState.open_ ∧
       (cb._on_failure now).last_failure_time = now) := by
  intro cb now hr hs
  refine ⟨⟨rfl, rfl⟩, ?_, on_failure_last cb now⟩
  apply on_failure_opens
  have := reachable_sat cb hr (Or.inr hs)
  omega

/-- C5 witness: the reachable HalfOpen breaker `cbHalf1` (fresh `cfg1`
breaker, one failure at time 0, gate check at time 60), probed at time 70. -/
theorem C5_witness :
    (cbHalf1._on_success.state = CircuitState.closed ∧
     cbHalf1._on_success.failure_count = 0) ∧
    ((cbHalf1._on_failure 70).state = CircuitState.open_ ∧
     (cbHalf1._on_failure 70).last_failure_time = 70) :=
  C5_halfopen_step cbHalf1 70
    (Reachable.allow cbOpen1 60
      (Reachable.failure cbInit1 0 (Reachable.init cfg1)))
    (by decide)

/-- C6: with jitter disabled the computed backoff delay for 0-indexed
attempt `i` equals `min(base_delay * exponential_base ^ i, max_delay)`
exactly; with jitter enabled that value is multiplied by
`0.5 + r * 0.5` where `r` is the `random.random()` draw (uniform on
`[0, 1)`), a factor that lies within `[0.5, 1.0]`. -/
theorem C6_backoff_delay :
    ∀ (c : RetryConfig) (i : ℕ) (r : ℚ),
      (c.jitter = false →
        RetryHandler._calculate_delay c i r
          = min (c.base_delay * c.exponential_base ^ i) c.max_delay) ∧
      (c.jitter = true →
        RetryHandler._calculate_delay c i r
          = min (c.base_delay * c.exponential_base ^ i) c.max_delay
              * (1/2 + r * (1/2))) ∧
      (0 ≤ r → r < 1 →
        1/2 ≤ 1/2 + r * (1/2) ∧ 1/2 + r * (1/2) ≤ 1) := by
  intro c i r
  refine ⟨?_, ?_, ?_⟩
  · intro h
    simp [RetryHandler._calculate_delay, h]
  · intro h
    simp [RetryHandler._calculate_delay, h]
  · intro h0 h1
    constructor <;> linarith

/-- C6 witness: the default config (jitter on) and its jitter-free variant,
at attempt 2 with the draw `r = 0`. -/
theorem C6_witness :
    (RetryHandler._calculate_delay retry_nojitter 2 0
      = min (retry_nojitter.base_delay * retry_nojitter.exponential_base ^ 2)
          retry_nojitter.max_delay) ∧
    (RetryHandler._calculate_delay default_retry_config 2 0
      = min (default_retry_config.base_delay
              * default_retry_config.exponential_base ^ 2)
          default_retry_config.max_delay * (1/2 + 0 * (1/2))) ∧
    ((1:ℚ)/2 ≤ 1/2 + 0 * (1/2) ∧ (1:ℚ)/2 + 0 * (1/2) ≤ 1) :=
  ⟨(C6_backoff_delay retry_nojitter 2 0).1 rfl,
   (C6_backoff_delay default_retry_config 2 0).2.1 rfl,
   (C6_backoff_delay default_retry_config 2 0).2.2 (le_refl 0) zero_lt_one⟩

/-- C7: for every primary whose protected execution fails with `e`: if a
fallback is registered for that name and its protected execution under the
derived name `name ++ "_fallback"` (a separate breaker/retry entry) returns
a value `v`, the recorded outcome is `fallback_success v (str e)`; if the
fallback also fails with `fe`, the outcome is
`failed (str e) (some (str fe))`, retaining both errors; and
`graceful_degradation` (which catches every exception, so it never raises)
returns exactly one outcome per primary name. -/
theorem C7_fallback_outcomes :
    ∀ (α : Type) (m : ResilienceManager)
      (fallbacks exporters : List (String × (ℕ → Except PyExc α)))
      (times : ℕ → ℤ) (name : String) (func fb : ℕ → Except PyExc α)
      (e fe : PyExc) (v : α) (m1 m2 : ResilienceManager),
      (m.execute_with_resilience name func times = (Except.error e, m1) →
       fallbacks.lookup name = some fb →
       m1.execute_with_resilience (name ++ "_fallback") fb times
           = (Except.ok v, m2) →
       graceful_step m fallbacks times name func
         = (DegradationResult.fallback_success v e.msg, m2)) ∧
      (m.execute_with_resilience name func times = (Except.error e, m1) →
       fallbacks.lookup name = some fb →
       m1.execute_with_resilience (name ++ "_fallback") fb times
           = (Except.error fe, m2) →
       graceful_step m fallbacks times name func
         = (DegradationResult.failed e.msg (some fe.msg), m2)) ∧
      ((m.graceful_degradation exporters fallbacks times).1).map Prod.fst
        = exporters.map Prod.fst := by
  intro α m fallbacks exporters times name func fb e fe v m1 m2
  refine ⟨?_, ?_, gd_keys fallbacks times exporters m⟩
  · intro h1 h2 h3
    unfold graceful_step
    rw [h1]
    dsimp only
    rw [h2]
    dsimp only
    rw [h3]
  · intro h1 h2 h3
    unfold graceful_step
    rw [h1]
    dsimp only
    rw [h2]
    dsimp only
    rw [h3]

/-- C7 witness: one primary `"a"` that fails every attempt (final error
`boom2`), once with a succeeding fallback (outcome `fallback_success`) and
once with a failing fallback (outcome `failed` retaining both errors), plus
the outcome-per-name fact for a one-entry exporter map. -/
theorem C7_witness :
    graceful_step emptyManager [("a", okF)] times0 "a" failF
      = (DegradationResult.fallback_success 7 "boom2",
         ((emptyManager.execute_with_resilience "a" failF
             times0).2.execute_with_resilience ("a" ++ "_fallback") okF
             times0).2) ∧
    graceful_step emptyManager [("a", failF)] times0 "a" failF
      = (DegradationResult.failed "boom2" (some "boom2"),
         ((emptyManager.execute_with_resilience "a" failF
             times0).2.execute_with_resilience ("a" ++ "_fallback") failF
             times0).2) ∧
    ((emptyManager.graceful_degradation [("a", failF)] [("a", okF)]
        times0).1).map Prod.fst = ["a"] :=
  ⟨(C7_fallback_outcomes ℕ emptyManager [("a", okF)] [("a", failF)] times0
      "a" failF okF (boomErrs 2) (boomErrs 2) 7
      (emptyManager.execute_with_resilience "a" failF times0).2
      ((emptyManager.execute_with_resilience "a" failF
          times0).2.execute_with_resilience ("a" ++ "_fallback") okF
          times0).2).1 rfl rfl rfl,
   (C7_fallback_outcomes ℕ emptyManager [("a", failF)] [("a", failF)] times0
      "a" failF failF (boomErrs 2) (boomErrs 2) 7
      (emptyManager.execute_with_resilience "a" failF times0).2
      ((emptyManager.execute_with_resilience "a" failF
          times0).2.execute_with_resilience ("a" ++ "_fallback") failF
          times0).2).2.1 rfl rfl rfl,
   (C7_fallback_outcomes ℕ emptyManager [("a", okF)] [("a", failF)] times0
      "a" failF okF (boomErrs 2) (boomErrs 2) 7 emptyManager
      emptyManager).2.2⟩

/-- C8 (amended): `get_circuit_breaker` takes no lock around its
check-then-insert, so insertion into the registry's mapping is *not*
mutually exclusive: interleaving two concurrent first-uses of the same
service name (both check before either inserts) constructs two
`CircuitBreaker` objects for that name, while a first-use that completes
before the second thread checks constructs exactly one. -/
theorem C8_race_check_then_insert :
    (runSchedule [false, true, false, true] regInit).constructions = 2 ∧
    (runSchedule [false, false, true, true] regInit).constructions = 1 := by
  decide

/-- C8 counterexample: the schedule in which both threads evaluate
`name not in self.circuit_breakers` before either executes
`self.circuit_breakers[name] = CircuitBreaker(config)` makes both construct
a breaker — refuting the claim that no two concurrent first-uses of the
same name can create duplicate breakers. -/
theorem C8_counterexample :
    ¬ ∀ sched : List Bool,
        (runSchedule sched regInit).constructions ≤ 1 :=
  fun h => absurd (h [false, true, false, true]) (by decide)

/-- C9: in every breaker state reachable from the initial Closed state by
any sequence of gate checks (`Allow`), recorded successes, recorded
failures and manual resets, if the state is Open or HalfOpen then
`failure_count ≥ failure_threshold`; in particular a reachable HalfOpen
breaker always has a saturated failure count. -/
theorem C9_saturated :
    ∀ cb : CircuitBreaker, Reachable cb →
      cb.state = CircuitState.open_ ∨ cb.state = CircuitState.halfOpen →
      cb.config.failure_threshold ≤ (cb.failure_count : ℤ) :=
  reachable_sat

/-- C9 witness: the reachable Open breaker `cbOpen1` (threshold 1, one
recorded failure) has `failure_count ≥ failure_threshold`. -/
theorem C9_witness :
    cbOpen1.config.failure_threshold ≤ (cbOpen1.failure_count : ℤ) :=
  C9_saturated cbOpen1
    (Reachable.failure cbInit1 0 (Reachable.init cfg1))
    (Or.inl (by decide))

/-- C10: a call rejected by the gate (Open, before `recovery_timeout` has
elapsed) leaves every breaker field — state, failure count and last failure
time — unchanged, and never invokes the wrapped operation; yet the
enclosing retry loop treats the rejection like any failure, so a breaker
stuck Open consumes the full retry budget of `max_attempts` attempts. -/
theorem C10_rejection_frame :
    ∀ (α : Type) (cb : CircuitBreaker) (now : ℤ) (res : Except PyExc α)
      (c : RetryConfig),
      cb.state = CircuitState.open_ →
      ¬ cb.config.recovery_timeout ≤ now - cb.last_failure_time →
      ((cb.call now res).breaker.state = cb.state ∧
       (cb.call now res).breaker.failure_count = cb.failure_count ∧
       (cb.call now res).breaker.last_failure_time = cb.last_failure_time ∧
       (cb.call now res).invoked = false) ∧
      (1 ≤ c.max_attempts →
        (execute_with_retry c
            (fun _ => (Except.error (circuit_exc CircuitState.open_)
              : Except PyExc α))).2 = c.max_attempts) := by
  intro α cb now res c hs ht
  constructor
  · rw [call_rejected cb now res hs ht]
    exact ⟨rfl, rfl, rfl, rfl⟩
  · intro h
    rw [execute_all_fail c (fun _ => circuit_exc CircuitState.open_) _
      (fun _ => rfl) h]

/-- C10 witness: `cbOpen5` rejected at time 10 (50 seconds early), and the
default retry policy consuming all 3 attempts on constant rejections. -/
theorem C10_witness :
    ((cbOpen5.call 10 (Except.error (boomErrs 0) : Except PyExc ℕ)).breaker.state
        = cbOpen5.state ∧
     (cbOpen5.call 10
        (Except.error (boomErrs 0) : Except PyExc ℕ)).breaker.failure_count
        = cbOpen5.failure_count ∧
     (cbOpen5.call 10
        (Except.error (boomErrs 0) : Except PyExc ℕ)).breaker.last_failure_time
        = cbOpen5.last_failure_time ∧
     (cbOpen5.call 10 (Except.error (boomErrs 0) : Except PyExc ℕ)).invoked
        = false) ∧
    (execute_with_retry default_retry_config
        (fun _ => (Except.error (circuit_exc CircuitState.open_)
          : Except PyExc ℕ))).2 = 3 :=
  ⟨(C10_rejection_frame ℕ cbOpen5 10 (Except.error (boomErrs 0))
      default_retry_config rfl (by decide)).1,
   (C10_rejection_frame ℕ cbOpen5 10 (Except.error (boomErrs 0))
      default_retry_config rfl (by decide)).2 (by decide)⟩
